import Mathlib

/-!
# Verification of the Sales-Bot email campaign system

Shallow embedding of the two source modules of the repository:

* `Scheduler.py` — campaign engine: `load_json`/`save_json`, `send_email`,
  `send_reminder_email`, `send_emails_to_all`, reminder-job scheduling.
* `app.py` — response endpoint: `load_json`, `update_contact_status`,
  `track_response`, the `/interested/{id}`, `/not-interested/{id}` and
  `/stats` routes.

Modelling conventions:

* Contact records are Python dicts; optional keys are modelled as `Option`
  fields (an absent key and a JSON `null` value are both `none` — the code
  only distinguishes them through `in` checks whose observable effect under
  this conflation is unchanged for the verified properties).
* Timestamps (`datetime.now().isoformat()`) are abstracted as an `Int`
  "now" value threaded into each operation; time arithmetic
  (`timedelta(minutes=m)`) becomes integer addition.
* The SMTP transport, template file and file system are external
  collaborators; their success or failure is an oracle (`SendEnv`).
* Persistence (`save_json`) is observable through an explicit list of
  `WriteOp`s (whole-file snapshots, as in the source).
* The APScheduler `BackgroundScheduler` is external to the repository; it is
  modelled from the spec (§4.2): `add_job` registers a one-shot job keyed by
  an advisory id, duplicate ids are not rejected, and firing removes the job
  and invokes the callback with its stored arguments.
-/

/-- A contact record (`contacts.json` entry).  `id`, `name`, `email` are the
keys the code reads unconditionally; the rest are read with `.get`/`in`. -/
structure Contact where
  id : Int
  name : String
  email : String
  company : Option String := none
  status : Option String := none
  reminder_count : Option Int := none
  sent_at : Option Int := none
  last_reminder_sent : Option Int := none
  updated_at : Option Int := none
deriving Repr, DecidableEq

/-- A tracking-log record (`email_tracking.json` entry), as appended by
`send_email`, `send_reminder_email` and `track_response`. -/
structure TrackingEvent where
  contact_id : Int
  contact_name : String
  contact_email : String
  action : String
  timestamp : Int
deriving Repr, DecidableEq

/-- The advisory job id `f"reminder_{contact_id}_{ordinal}"`, modelled by its
two varying components. -/
structure JobKey where
  cid : Int
  ordinal : Int
deriving Repr, DecidableEq

/-- A one-shot scheduled reminder job: `add_job(send_reminder_email, 'date',
run_date=…, args=[contact_id, interval], id=…)`. -/
structure Job where
  key : JobKey
  runDate : Int
  cid : Int
  interval : Int
deriving Repr, DecidableEq

/-- One whole-file persistence operation (`save_json`). -/
inductive WriteOp where
  | contactsWrite (data : List Contact)
  | trackingWrite (data : List TrackingEvent)
deriving Repr, DecidableEq

def isTrackingWriteB : WriteOp → Bool
  | .trackingWrite _ => true
  | .contactsWrite _ => false

def isContactsWriteB : WriteOp → Bool
  | .contactsWrite _ => true
  | .trackingWrite _ => false

/-- Oracle for the fallible external steps inside one send attempt:
reading the template file, the SMTP session, and the tracking-file write. -/
structure SendEnv where
  templateOk : Bool
  smtpOk : Bool
  trackingSaveOk : Bool
deriving Repr, DecidableEq

/-- A send attempt succeeds end-to-end iff all its fallible steps do. -/
def sendOk (e : SendEnv) : Bool := e.templateOk && e.smtpOk && e.trackingSaveOk

/-! ## Store files and the two `load_json` implementations (C2)

A store file is classified by how `json.load` treats its content: missing
(open raises `FileNotFoundError`), existing but empty/whitespace, existing
with malformed JSON (both raise `json.JSONDecodeError` on parse), or
well-formed holding data. -/

inductive StoreFile (α : Type) where
  | missing
  | emptyFile
  | malformed
  | wellFormed (data : α)
deriving Repr, DecidableEq

namespace Scheduler

/-- `Scheduler.py` `load_json`: catches only `FileNotFoundError` (returning
`[]`); an empty or malformed file makes `json.load` raise
`json.JSONDecodeError`, which propagates to the caller. -/
def load_json (f : StoreFile (List α)) : Except Unit (List α) :=
  match f with
  | .missing => .ok []
  | .emptyFile => .error ()
  | .malformed => .error ()
  | .wellFormed d => .ok d

end Scheduler

namespace App

/-- `app.py` `load_json`: returns `[]` for a missing file
(`FileNotFoundError`), for stripped-empty content, and for malformed JSON
(`json.JSONDecodeError`); otherwise the parsed data.  It never raises. -/
def load_json (f : StoreFile (List α)) : List α :=
  match f with
  | .missing => []
  | .emptyFile => []
  | .malformed => []
  | .wellFormed d => d

end App

/-! ## The contact store as a JSON document (C7)

`save_json` serialises the contact list as one JSON array of objects;
`load_json` parses it back.  The document is modelled as a JSON syntax tree
(only the forms the store uses), `save_contacts` as the serialisation of a
contact list and `load_contacts` as the parse back into contact records. -/

inductive Json where
  | null
  | num (n : Int)
  | str (s : String)
  | arr (xs : List Json)
  | obj (fields : List (String × Json))

def Json.lookupKey : List (String × Json) → String → Option Json
  | [], _ => none
  | (k, v) :: rest, key => if k == key then some v else Json.lookupKey rest key

def encOptStr : Option String → Json
  | none => .null
  | some s => .str s

def encOptInt : Option Int → Json
  | none => .null
  | some n => .num n

/-- The JSON object `json.dump` writes for one contact dict. -/
def encodeContact (c : Contact) : Json :=
  .obj [("id", .num c.id), ("name", .str c.name), ("email", .str c.email),
        ("company", encOptStr c.company), ("status", encOptStr c.status),
        ("reminder_count", encOptInt c.reminder_count),
        ("sent_at", encOptInt c.sent_at),
        ("last_reminder_sent", encOptInt c.last_reminder_sent),
        ("updated_at", encOptInt c.updated_at)]

def getNum (fs : List (String × Json)) (k : String) : Option Int :=
  match Json.lookupKey fs k with
  | some (.num n) => some n
  | _ => none

def getStr (fs : List (String × Json)) (k : String) : Option String :=
  match Json.lookupKey fs k with
  | some (.str s) => some s
  | _ => none

def getOptStr (fs : List (String × Json)) (k : String) : Option (Option String) :=
  match Json.lookupKey fs k with
  | some (.str s) => some (some s)
  | some .null => some none
  | none => some none
  | _ => none

def getOptInt (fs : List (String × Json)) (k : String) : Option (Option Int) :=
  match Json.lookupKey fs k with
  | some (.num n) => some (some n)
  | some .null => some none
  | none => some none
  | _ => none

/-- Parse one JSON object back into the contact dict it encodes. -/
def decodeContact : Json → Option Contact
  | .obj fs =>
    match getNum fs "id", getStr fs "name", getStr fs "email",
          getOptStr fs "company", getOptStr fs "status",
          getOptInt fs "reminder_count", getOptInt fs "sent_at",
          getOptInt fs "last_reminder_sent", getOptInt fs "updated_at" with
    | some i, some nm, some em, some co, some st, some rc, some sa, some lr, some ua =>
      some { id := i, name := nm, email := em, company := co, status := st,
             reminder_count := rc, sent_at := sa, last_reminder_sent := lr,
             updated_at := ua }
    | _, _, _, _, _, _, _, _, _ => none
  | _ => none

def decodeContactList : List Json → Option (List Contact)
  | [] => some []
  | j :: rest =>
    match decodeContact j, decodeContactList rest with
    | some c, some cs => some (c :: cs)
    | _, _ => none

/-- `save_json(CONTACTS_FILE, contacts)`: the JSON document written. -/
def save_contacts (cs : List Contact) : Json := .arr (cs.map encodeContact)

/-- `load_json(CONTACTS_FILE)` on a well-formed store: parse the document
back into the contact collection (in array order). -/
def load_contacts : Json → Option (List Contact)
  | .arr js => decodeContactList js
  | _ => none

theorem decodeContact_encodeContact (c : Contact) :
    decodeContact (encodeContact c) = some c := by
  obtain ⟨i, nm, em, co, st, rc, sa, lr, ua⟩ := c
  rcases co with _ | co <;> rcases st with _ | st <;> rcases rc with _ | rc <;>
    rcases sa with _ | sa <;> rcases lr with _ | lr <;> rcases ua with _ | ua <;> rfl

/-! ## Scheduler.py: sending and the reminder lifecycle -/

namespace Scheduler

/-- `MAX_REMINDERS = 3  # Maximum number of reminders per contact` -/
def MAX_REMINDERS : Int := 3

/-- `DEFAULT_REMINDER_INTERVAL_MINUTES = 1` -/
def DEFAULT_REMINDER_INTERVAL_MINUTES : Int := 1

/-- The tracking entry appended by `send_email` after a successful SMTP
submission. -/
def sentEvent (now : Int) (c : Contact) : TrackingEvent :=
  { contact_id := c.id, contact_name := c.name, contact_email := c.email,
    action := "email_sent", timestamp := now }

/-- `send_email(contact)`: the whole body runs inside one `try`.  Template
load, the SMTP session and the tracking-file save can each fail; any
exception is caught and reported as `False`, otherwise the tracking log
gains one `email_sent` entry, is saved, and `True` is returned.
Result: (tracking log on file, writes performed, return value). -/
def send_email (env : SendEnv) (now : Int) (contact : Contact)
    (tracking : List TrackingEvent) : List TrackingEvent × List WriteOp × Bool :=
  if env.templateOk && env.smtpOk then
    let tracking' := tracking ++ [sentEvent now contact]
    if env.trackingSaveOk then (tracking', [.trackingWrite tracking'], true)
    else (tracking, [], false)
  else (tracking, [], false)

/-- The persisted state the scheduler process acts on: the two store files
plus the set of pending one-shot jobs inside the `BackgroundScheduler`. -/
structure SchedState where
  contacts : List Contact
  tracking : List TrackingEvent
  jobs : List Job
deriving Repr, DecidableEq

/-- In-place mutation of the first list element with the given id (the
Python loop mutates the dict that `next(...)` returned, which lives inside
the loaded list). -/
def replaceFirstById : List Contact → Int → Contact → List Contact
  | [], _, _ => []
  | c :: rest, cid, c' =>
    if c.id == cid then c' :: rest else c :: replaceFirstById rest cid c'

/-- `send_reminder_email(contact_id, reminder_interval_minutes)`:
1. reload contacts, find the contact; if missing or not `pending`, no-op;
2. if `reminder_count >= MAX_REMINDERS`, mark `not_interested`, stamp
   `updated_at`, save contacts, stop;
3. else (inside `try`) render and send the reminder; on success increment
   `reminder_count`, stamp `last_reminder_sent`/`updated_at`, append a
   `reminder_{n}_sent` tracking entry, save tracking then contacts, and if
   the new count is still below the cap (and a scheduler exists) register
   the next one-shot job; on any exception, catch and stop (nothing was
   persisted if the failure preceded the saves).
Result: (state after, writes performed). -/
def send_reminder_email (env : SendEnv) (sched : Bool) (contact_id interval now : Int)
    (s : SchedState) : SchedState × List WriteOp :=
  match s.contacts.find? (fun c => c.id == contact_id) with
  | none => (s, [])
  | some c =>
    if c.status == some "pending" then
      let rc := c.reminder_count.getD 0
      if rc ≥ MAX_REMINDERS then
        let c' := { c with status := some "not_interested", updated_at := some now }
        let contacts' := replaceFirstById s.contacts contact_id c'
        ({ s with contacts := contacts' }, [.contactsWrite contacts'])
      else
        if env.templateOk && env.smtpOk then
          let rc' := rc + 1
          let c' := { c with reminder_count := some rc',
                             last_reminder_sent := some now,
                             updated_at := some now }
          let ev : TrackingEvent :=
            { contact_id := c.id, contact_name := c.name, contact_email := c.email,
              action := "reminder_" ++ toString rc' ++ "_sent", timestamp := now }
          let tracking' := s.tracking ++ [ev]
          if env.trackingSaveOk then
            let contacts' := replaceFirstById s.contacts contact_id c'
            let jobs' :=
              if sched && rc' < MAX_REMINDERS then
                s.jobs ++ [{ key := { cid := contact_id, ordinal := rc' + 1 },
                             runDate := now + interval, cid := contact_id,
                             interval := interval }]
              else s.jobs
            ({ contacts := contacts', tracking := tracking', jobs := jobs' },
             [.trackingWrite tracking', .contactsWrite contacts'])
          else (s, [])
        else (s, [])
    else (s, [])

/-- Modelled from the spec (§4.2 Reminder Timer, an external collaborator —
APScheduler is not part of the repository): a due one-shot job is removed
from the scheduler and its callback `send_reminder_email` is invoked exactly
once with the stored `args=[contact_id, interval]`. -/
def fireJob (env : SendEnv) (sched : Bool) (now : Int) (s : SchedState) :
    SchedState × List WriteOp :=
  match s.jobs with
  | [] => (s, [])
  | j :: rest =>
    send_reminder_email env sched j.cid j.interval now { s with jobs := rest }

/-- `c.get('status') == 'pending'` — the campaign eligibility filter. -/
def pendingB (c : Contact) : Bool := c.status == some "pending"

/-- The in-place update `send_emails_to_all` performs on a contact whose
initial send succeeded: stamp `sent_at`/`updated_at`, and initialise
`reminder_count` to 0 when the key is absent (`last_reminder_sent` is set to
`None` when absent, a no-op under the `Option` modelling). -/
def applyInitialSend (now : Int) (c : Contact) : Contact :=
  let c1 := { c with sent_at := some now, updated_at := some now }
  if c1.reminder_count.isNone then { c1 with reminder_count := some 0 } else c1

/-- What Python's `return` hands back from `send_emails_to_all`: `None` on
the early exit, otherwise the (mutated) `pending_contacts` list.  The
`countsVal` form is the shape §4.1 of the spec claims is returned; the code
never constructs it. -/
inductive CampaignReturn where
  | noneVal
  | contactList (cs : List Contact)
  | countsVal (succeeded failed total : Nat)
deriving Repr, DecidableEq

/-- Loop state for the `for contact in pending_contacts` loop. -/
structure CampaignAcc where
  done : List Contact
  pendingDone : List Contact
  tracking : List TrackingEvent
  writes : List WriteOp
  jobs : List Job
  sends : List Int
  succ : Nat
  fail : Nat
deriving Repr, DecidableEq

/-- The campaign loop, one iteration per contact of the loaded list
(non-pending contacts are simply not in `pending_contacts` and are carried
over unchanged).  For a pending contact: attempt `send_email`; on success
mutate the contact in place and (when a scheduler exists) register the
first reminder job `reminder_{id}_1` at `now + interval`; on failure count
it and leave it untouched. -/
def campaignLoop (env : Int → SendEnv) (sched : Bool) (interval now : Int) :
    List Contact → CampaignAcc → CampaignAcc
  | [], acc => acc
  | c :: rest, acc =>
    if pendingB c then
      let res := send_email (env c.id) now c acc.tracking
      if res.2.2 then
        let c' := applyInitialSend now c
        let jobs' :=
          if sched then
            acc.jobs ++ [{ key := { cid := c.id, ordinal := 1 },
                           runDate := now + interval, cid := c.id, interval := interval }]
          else acc.jobs
        campaignLoop env sched interval now rest
          { done := acc.done ++ [c'], pendingDone := acc.pendingDone ++ [c'],
            tracking := res.1, writes := acc.writes ++ res.2.1, jobs := jobs',
            sends := acc.sends ++ [c.id], succ := acc.succ + 1, fail := acc.fail }
      else
        campaignLoop env sched interval now rest
          { acc with pendingDone := acc.pendingDone ++ [c],
                     done := acc.done ++ [c],
                     tracking := res.1, writes := acc.writes ++ res.2.1,
                     sends := acc.sends ++ [c.id], fail := acc.fail + 1 }
    else
      campaignLoop env sched interval now rest { acc with done := acc.done ++ [c] }

/-- Everything observable about one campaign run: the contact store after
the run, the tracking store, the scheduler's jobs, the ordered list of
persistence operations, the ids attempted (in order), the three counts the
summary prints, and the Python return value. -/
structure CampaignResult where
  contacts : List Contact
  tracking : List TrackingEvent
  jobs : List Job
  writes : List WriteOp
  sends : List Int
  success_count : Nat
  failed_count : Nat
  total : Nat
  retVal : CampaignReturn
deriving Repr, DecidableEq

/-- `send_emails_to_all(reminder_interval_minutes)`: load contacts, filter
to `status == 'pending'`; if none, print and return `None` (nothing saved);
otherwise run the loop and save the contact collection once at the end,
returning the `pending_contacts` list. -/
def send_emails_to_all (env : Int → SendEnv) (sched : Bool) (interval now : Int)
    (contacts : List Contact) (tracking : List TrackingEvent) (jobs : List Job) :
    CampaignResult :=
  let pending := contacts.filter pendingB
  if pending.isEmpty then
    { contacts := contacts, tracking := tracking, jobs := jobs, writes := [],
      sends := [], success_count := 0, failed_count := 0, total := pending.length,
      retVal := .noneVal }
  else
    let acc := campaignLoop env sched interval now contacts
      { done := [], pendingDone := [], tracking := tracking, writes := [],
        jobs := jobs, sends := [], succ := 0, fail := 0 }
    { contacts := acc.done, tracking := acc.tracking, jobs := acc.jobs,
      writes := acc.writes ++ [.contactsWrite acc.done], sends := acc.sends,
      success_count := acc.succ, failed_count := acc.fail, total := pending.length,
      retVal := .contactList acc.pendingDone }

/-- The per-contact effect of one campaign pass on the contact store. -/
def stepContact (env : Int → SendEnv) (now : Int) (c : Contact) : Contact :=
  if pendingB c && sendOk (env c.id) then applyInitialSend now c else c

/-- Formalisation of the spec sentence "Returns counts of
{succeeded, failed, total}" (§4.1), for refinement comparison with the
embedded return value. -/
def returnsCountsTriple (r : CampaignResult) : Prop :=
  r.retVal = CampaignReturn.countsVal r.success_count r.failed_count r.total

end Scheduler

/-! ## app.py: the response endpoint -/

namespace App

/-- The body of `update_contact_status`'s loop: set `status` and
`updated_at` on the first contact whose `id` matches, then `break`;
contacts after the first match and non-matching contacts are untouched. -/
def setStatusFirst : List Contact → Int → String → Int → List Contact
  | [], _, _, _ => []
  | c :: rest, cid, st, now =>
    if c.id == cid then { c with status := some st, updated_at := some now } :: rest
    else c :: setStatusFirst rest cid st now

/-- `update_contact_status(contact_id, status)`: load contacts, update the
first match (if any), and always save the collection back.
Result: (contact store after, writes performed). -/
def update_contact_status (contacts : List Contact) (contact_id : Int)
    (status : String) (now : Int) : List Contact × List WriteOp :=
  let contacts' := setStatusFirst contacts contact_id status now
  (contacts', [.contactsWrite contacts'])

/-- `track_response(contact_id, action)`: load tracking and contacts; if a
contact with the id exists, append one entry and save tracking; otherwise
do nothing.  Result: (tracking store after, writes performed). -/
def track_response (contacts : List Contact) (tracking : List TrackingEvent)
    (contact_id : Int) (action : String) (now : Int) :
    List TrackingEvent × List WriteOp :=
  match contacts.find? (fun c => c.id == contact_id) with
  | some c =>
    let e : TrackingEvent :=
      { contact_id := contact_id, contact_name := c.name,
        contact_email := c.email, action := action, timestamp := now }
    (tracking ++ [e], [.trackingWrite (tracking ++ [e])])
  | none => (tracking, [])

/-- What a route handler sends back to the client. -/
inductive HttpResponse where
  | redirect (url : String)
  | htmlPage
deriving Repr, DecidableEq

/-- The observable outcome of one request: both stores after the request,
the writes performed, and the response. -/
structure AppResult where
  contacts : List Contact
  tracking : List TrackingEvent
  writes : List WriteOp
  response : HttpResponse
deriving Repr, DecidableEq

/-- `GET /interested/{contact_id}`: update the status to `"interested"`,
track the response, redirect to the configured `CALENDLY_LINK`. -/
def interested (calendly : String) (contact_id now : Int)
    (contacts : List Contact) (tracking : List TrackingEvent) : AppResult :=
  let u := update_contact_status contacts contact_id "interested" now
  let t := track_response u.1 tracking contact_id "interested" now
  { contacts := u.1, tracking := t.1, writes := u.2 ++ t.2,
    response := .redirect calendly }

/-- `GET /not-interested/{contact_id}`: update the status to
`"not_interested"`, track the response, return the static thank-you page
with status 200. -/
def not_interested (contact_id now : Int)
    (contacts : List Contact) (tracking : List TrackingEvent) : AppResult :=
  let u := update_contact_status contacts contact_id "not_interested" now
  let t := track_response u.1 tracking contact_id "not_interested" now
  { contacts := u.1, tracking := t.1, writes := u.2 ++ t.2,
    response := .htmlPage }

/-- The JSON body `GET /stats` returns.  `response_rate` is the string
`"0%"` when the collection is empty (encoded `none`) and otherwise the
exact rational `(interested + not_interested) / total * 100` that the code
formats to one decimal place (the decimal rendering itself is outside the
embedding). -/
structure StatsResponse where
  total_contacts : Nat
  interested : Nat
  not_interested : Nat
  pending : Nat
  response_rate : Option Rat
  recent_responses : List TrackingEvent
deriving Repr, DecidableEq

/-- `GET /stats`: counts by status (`c['status']` raises `KeyError` when a
contact has no status key — modelled as the `error` case), the guarded
response rate, and `tracking[-10:] if len(tracking) > 0 else []`. -/
def get_stats (contacts : List Contact) (tracking : List TrackingEvent) :
    Except Unit StatsResponse :=
  if contacts.all (fun c => c.status.isSome) then
    let total := contacts.length
    let i := (contacts.filter (fun c => c.status == some "interested")).length
    let ni := (contacts.filter (fun c => c.status == some "not_interested")).length
    let p := (contacts.filter (fun c => c.status == some "pending")).length
    Except.ok
      { total_contacts := total, interested := i, not_interested := ni, pending := p,
        response_rate :=
          if 0 < total then some (((i + ni : Nat) : Rat) / (total : Rat) * 100)
          else none,
        recent_responses :=
          if 0 < tracking.length then tracking.drop (tracking.length - 10) else [] }
  else Except.error ()

end App

/-! ## Helper lemmas -/

theorem send_email_flag (env : SendEnv) (now : Int) (c : Contact)
    (tracking : List TrackingEvent) :
    (Scheduler.send_email env now c tracking).2.2 = sendOk env := by
  rcases env with ⟨t, sm, tr⟩
  cases t <;> cases sm <;> cases tr <;> rfl

theorem send_email_tracking (env : SendEnv) (now : Int) (c : Contact)
    (tracking : List TrackingEvent) :
    (Scheduler.send_email env now c tracking).1 =
      if sendOk env then tracking ++ [Scheduler.sentEvent now c] else tracking := by
  rcases env with ⟨t, sm, tr⟩
  cases t <;> cases sm <;> cases tr <;> rfl

theorem send_email_writes (env : SendEnv) (now : Int) (c : Contact)
    (tracking : List TrackingEvent) :
    (Scheduler.send_email env now c tracking).2.1 =
      if sendOk env then
        [WriteOp.trackingWrite (tracking ++ [Scheduler.sentEvent now c])]
      else [] := by
  rcases env with ⟨t, sm, tr⟩
  cases t <;> cases sm <;> cases tr <;> rfl

theorem filter_split_length (l : List α) (p q : α → Bool) :
    (l.filter fun a => p a && q a).length + (l.filter fun a => p a && !(q a)).length
      = (l.filter p).length := by
  induction l with
  | nil => rfl
  | cons a rest ih =>
    cases hp : p a <;> cases hq : q a <;>
      simp [List.filter_cons, hp, hq] <;> omega

theorem campaignLoop_succ (env : Int → SendEnv) (sched : Bool) (interval now : Int)
    (l : List Contact) : ∀ acc : Scheduler.CampaignAcc,
    (Scheduler.campaignLoop env sched interval now l acc).succ
      = acc.succ + (l.filter fun c => Scheduler.pendingB c && sendOk (env c.id)).length := by
  induction l with
  | nil => intro acc; simp [Scheduler.campaignLoop]
  | cons c rest ih =>
    intro acc
    cases hp : Scheduler.pendingB c
    · simp [Scheduler.campaignLoop, hp, ih, List.filter_cons]
    · cases hok : sendOk (env c.id) <;>
        simp [Scheduler.campaignLoop, hp, hok, send_email_flag, ih, List.filter_cons] <;>
        omega

theorem campaignLoop_fail (env : Int → SendEnv) (sched : Bool) (interval now : Int)
    (l : List Contact) : ∀ acc : Scheduler.CampaignAcc,
    (Scheduler.campaignLoop env sched interval now l acc).fail
      = acc.fail + (l.filter fun c => Scheduler.pendingB c && !(sendOk (env c.id))).length := by
  induction l with
  | nil => intro acc; simp [Scheduler.campaignLoop]
  | cons c rest ih =>
    intro acc
    cases hp : Scheduler.pendingB c
    · simp [Scheduler.campaignLoop, hp, ih, List.filter_cons]
    · cases hok : sendOk (env c.id) <;>
        simp [Scheduler.campaignLoop, hp, hok, send_email_flag, ih, List.filter_cons] <;>
        omega

theorem campaignLoop_done (env : Int → SendEnv) (sched : Bool) (interval now : Int)
    (l : List Contact) : ∀ acc : Scheduler.CampaignAcc,
    (Scheduler.campaignLoop env sched interval now l acc).done
      = acc.done ++ l.map (Scheduler.stepContact env now) := by
  induction l with
  | nil => intro acc; simp [Scheduler.campaignLoop]
  | cons c rest ih =>
    intro acc
    cases hp : Scheduler.pendingB c
    · simp [Scheduler.campaignLoop, hp, ih, Scheduler.stepContact]
    · cases hok : sendOk (env c.id) <;>
        simp [Scheduler.campaignLoop, hp, hok, send_email_flag, ih, Scheduler.stepContact]

theorem campaignLoop_pendingDone (env : Int → SendEnv) (sched : Bool) (interval now : Int)
    (l : List Contact) : ∀ acc : Scheduler.CampaignAcc,
    (Scheduler.campaignLoop env sched interval now l acc).pendingDone
      = acc.pendingDone
        ++ (l.filter Scheduler.pendingB).map (Scheduler.stepContact env now) := by
  induction l with
  | nil => intro acc; simp [Scheduler.campaignLoop]
  | cons c rest ih =>
    intro acc
    cases hp : Scheduler.pendingB c
    · simp [Scheduler.campaignLoop, hp, ih, List.filter_cons]
    · cases hok : sendOk (env c.id) <;>
        simp [Scheduler.campaignLoop, hp, hok, send_email_flag, ih, List.filter_cons,
          Scheduler.stepContact]

theorem campaignLoop_sends (env : Int → SendEnv) (sched : Bool) (interval now : Int)
    (l : List Contact) : ∀ acc : Scheduler.CampaignAcc,
    (Scheduler.campaignLoop env sched interval now l acc).sends
      = acc.sends ++ (l.filter Scheduler.pendingB).map (fun c => c.id) := by
  induction l with
  | nil => intro acc; simp [Scheduler.campaignLoop]
  | cons c rest ih =>
    intro acc
    cases hp : Scheduler.pendingB c
    · simp [Scheduler.campaignLoop, hp, ih, List.filter_cons]
    · cases hok : sendOk (env c.id) <;>
        simp [Scheduler.campaignLoop, hp, hok, send_email_flag, ih, List.filter_cons]

theorem campaignLoop_writes (env : Int → SendEnv) (sched : Bool) (interval now : Int)
    (l : List Contact) : ∀ acc : Scheduler.CampaignAcc,
    ∃ ws, (Scheduler.campaignLoop env sched interval now l acc).writes = acc.writes ++ ws ∧
      ws.all isTrackingWriteB = true ∧
      ws.length = (l.filter fun c => Scheduler.pendingB c && sendOk (env c.id)).length := by
  induction l with
  | nil => intro acc; exact ⟨[], by simp [Scheduler.campaignLoop], rfl, by simp⟩
  | cons c rest ih =>
    intro acc
    cases hp : Scheduler.pendingB c
    · obtain ⟨ws, hw, hall, hlen⟩ := ih { acc with done := acc.done ++ [c] }
      refine ⟨ws, ?_, hall, ?_⟩
      · simpa [Scheduler.campaignLoop, hp] using hw
      · simp [hlen, List.filter_cons, hp]
    · cases hok : sendOk (env c.id)
      · obtain ⟨ws, hw, hall, hlen⟩ := ih
          { acc with pendingDone := acc.pendingDone ++ [c], done := acc.done ++ [c],
                     tracking := (Scheduler.send_email (env c.id) now c acc.tracking).1,
                     writes := acc.writes ++ (Scheduler.send_email (env c.id) now c acc.tracking).2.1,
                     sends := acc.sends ++ [c.id], fail := acc.fail + 1 }
        refine ⟨ws, ?_, hall, ?_⟩
        · simpa [Scheduler.campaignLoop, hp, hok, send_email_flag, send_email_writes] using hw
        · simp [hlen, List.filter_cons, hp, hok]
      · obtain ⟨ws, hw, hall, hlen⟩ := ih
          { done := acc.done ++ [Scheduler.applyInitialSend now c],
            pendingDone := acc.pendingDone ++ [Scheduler.applyInitialSend now c],
            tracking := (Scheduler.send_email (env c.id) now c acc.tracking).1,
            writes := acc.writes
              ++ (Scheduler.send_email (env c.id) now c acc.tracking).2.1,
            jobs := if sched then
                acc.jobs ++ [{ key := { cid := c.id, ordinal := 1 },
                               runDate := now + interval, cid := c.id,
                               interval := interval }]
              else acc.jobs,
            sends := acc.sends ++ [c.id], succ := acc.succ + 1, fail := acc.fail }
        refine ⟨WriteOp.trackingWrite (acc.tracking ++ [Scheduler.sentEvent now c]) :: ws,
          ?_, ?_, ?_⟩
        · simpa [Scheduler.campaignLoop, hp, hok, send_email_flag, send_email_writes] using hw
        · simpa [isTrackingWriteB] using hall
        · simp [hlen, List.filter_cons, hp, hok]

theorem decodeContactList_map (cs : List Contact) :
    decodeContactList (cs.map encodeContact) = some cs := by
  induction cs with
  | nil => rfl
  | cons c rest ih =>
    simp [decodeContactList, decodeContact_encodeContact, ih]

theorem setStatusFirst_find? (cid : Int) (st : String) (now : Int) :
    ∀ (l : List Contact) (c : Contact),
      l.find? (fun x => x.id == cid) = some c →
      (App.setStatusFirst l cid st now).find? (fun x => x.id == cid)
        = some { c with status := some st, updated_at := some now } := by
  intro l
  induction l with
  | nil => intro c h; simp at h
  | cons a rest ih =>
    intro c h
    cases ha : (a.id == cid) with
    | false =>
      rw [List.find?_cons_of_neg _ (by simp [ha])] at h
      have hs : App.setStatusFirst (a :: rest) cid st now
          = a :: App.setStatusFirst rest cid st now := by
        simp [App.setStatusFirst, ha]
      rw [hs, List.find?_cons_of_neg _ (by simp [ha])]
      exact ih c h
    | true =>
      rw [List.find?_cons_of_pos _ (by simp [ha])] at h
      obtain rfl : a = c := by simpa using h
      have hs : App.setStatusFirst (a :: rest) cid st now
          = { a with status := some st, updated_at := some now } :: rest := by
        simp [App.setStatusFirst, ha]
      rw [hs, List.find?_cons_of_pos _ (by simp [ha])]

theorem setStatusFirst_of_none (cid : Int) (st : String) (now : Int) :
    ∀ l : List Contact,
      l.find? (fun x => x.id == cid) = none → App.setStatusFirst l cid st now = l := by
  intro l
  induction l with
  | nil => intro _; rfl
  | cons a rest ih =>
    intro h
    cases ha : (a.id == cid) with
    | false =>
      rw [List.find?_cons_of_neg _ (by simp [ha])] at h
      have hs : App.setStatusFirst (a :: rest) cid st now
          = a :: App.setStatusFirst rest cid st now := by
        simp [App.setStatusFirst, ha]
      rw [hs, ih h]
    | true =>
      rw [List.find?_cons_of_pos _ (by simp [ha])] at h
      simp at h

/-! ## Concrete sample data (used by witnesses and counterexamples) -/

def envAllOk : SendEnv := { templateOk := true, smtpOk := true, trackingSaveOk := true }

def chainContact : Contact :=
  { id := 1, name := "Ada", email := "ada@example.com",
    status := some "pending", reminder_count := some 0 }

/-- The state right after a campaign initial send for `chainContact`: the
first reminder job `reminder_1_1` is registered. -/
def chainStart : Scheduler.SchedState :=
  { contacts := [chainContact], tracking := [],
    jobs := [{ key := { cid := 1, ordinal := 1 }, runDate := 1, cid := 1, interval := 1 }] }

/-- Fire the next due reminder job at the given time, all sends succeeding. -/
def chainStepOnce (now : Int) (s : Scheduler.SchedState) : Scheduler.SchedState :=
  (Scheduler.fireJob envAllOk true now s).1

/-- The reminder chain run to completion: each scheduled job fired in turn. -/
def chainFinal : Scheduler.SchedState :=
  chainStepOnce 3 (chainStepOnce 2 (chainStepOnce 1 chainStart))

def samplePending : Contact :=
  { id := 7, name := "Niko", email := "niko@example.com", status := some "pending" }

def sampleResolved : Contact :=
  { id := 9, name := "Rae", email := "rae@example.com",
    status := some "interested", reminder_count := some 1 }

def sampleState : Scheduler.SchedState :=
  { contacts := [sampleResolved], tracking := [], jobs := [] }

def pending42 : Contact :=
  { id := 42, name := "Pat", email := "pat@example.com", status := some "pending" }

def sampleEvent : TrackingEvent :=
  { contact_id := 42, contact_name := "Pat", contact_email := "pat@example.com",
    action := "email_sent", timestamp := 0 }

/-! ## Claim theorems -/

/-- C1: evaluating the reminder lifecycle at the failing input.  Starting
from a fresh pending contact (`reminder_count = 0`) with its first reminder
job scheduled, firing the chain to completion with every send succeeding
leaves `reminder_count` at the cap `MAX_REMINDERS` with the status still
`"pending"` and no job scheduled: the cap is reached, no further reminder
job exists, yet the status never becomes `"not_interested"` — the
`reminder_count >= MAX_REMINDERS` auto-mark branch is unreachable from the
chain itself, because the job that would trigger it is never scheduled
(`if new_reminder_count < MAX_REMINDERS`). -/
theorem reminder_chain_stops_pending_at_cap :
    chainFinal.contacts.map (fun c => (c.status, c.reminder_count))
        = [(some "pending", some Scheduler.MAX_REMINDERS)] ∧
    chainFinal.jobs = [] ∧
    chainFinal.tracking.map (fun e => e.action)
        = ["reminder_1_sent", "reminder_2_sent", "reminder_3_sent"] := by
  decide

/-- C2 counterexample: the Campaign Engine's `load_json` does not treat a
malformed store as an empty collection — `json.load` raises
`json.JSONDecodeError` and `Scheduler.py` catches only `FileNotFoundError`,
so the exception propagates instead of `[]` being returned. -/
theorem scheduler_load_malformed_raises :
    Scheduler.load_json (StoreFile.malformed : StoreFile (List Contact))
      ≠ Except.ok [] := by
  simp [Scheduler.load_json]

/-- C2 amended: the Response Endpoint's `load_json` returns an empty
collection without raising for a missing, empty or malformed store file;
the Campaign Engine's `load_json` does so only for a missing file and
raises (`JSONDecodeError`) on empty or malformed content. -/
theorem load_json_error_handling :
    App.load_json (StoreFile.missing : StoreFile (List Contact)) = [] ∧
    App.load_json (StoreFile.emptyFile : StoreFile (List Contact)) = [] ∧
    App.load_json (StoreFile.malformed : StoreFile (List Contact)) = [] ∧
    Scheduler.load_json (StoreFile.missing : StoreFile (List Contact)) = Except.ok [] ∧
    Scheduler.load_json (StoreFile.emptyFile : StoreFile (List Contact)) = Except.error () ∧
    Scheduler.load_json (StoreFile.malformed : StoreFile (List Contact)) = Except.error () :=
  ⟨rfl, rfl, rfl, rfl, rfl, rfl⟩

/-- C3 counterexample: a campaign run over one pending contact (all sends
succeeding) does not return the counts `{succeeded, failed, total}` — the
code returns the `pending_contacts` list (`return pending_contacts`). -/
theorem campaign_does_not_return_counts :
    ¬ Scheduler.returnsCountsTriple
        (Scheduler.send_emails_to_all (fun _ => envAllOk) true 1 0
          [samplePending] [] []) := by
  unfold Scheduler.returnsCountsTriple
  decide

/-- C3 amended: the campaign run computes (and prints) counts satisfying
`succeeded + failed = total` where `total` is the number of contacts whose
status is `pending` at the start of the run; the Python return value,
however, is the pending-contact list (or `None` when there were none), not
the counts. -/
theorem campaign_counts_balance (env : Int → SendEnv) (sched : Bool) (interval now : Int)
    (contacts : List Contact) (tracking : List TrackingEvent) (jobs : List Job) :
    (Scheduler.send_emails_to_all env sched interval now contacts tracking jobs).success_count
        + (Scheduler.send_emails_to_all env sched interval now contacts tracking jobs).failed_count
      = (Scheduler.send_emails_to_all env sched interval now contacts tracking jobs).total ∧
    (Scheduler.send_emails_to_all env sched interval now contacts tracking jobs).total
      = (contacts.filter Scheduler.pendingB).length := by
  by_cases hemp : (contacts.filter Scheduler.pendingB).isEmpty
  · have h0 : contacts.filter Scheduler.pendingB = [] := by
      simpa [List.isEmpty_iff] using hemp
    constructor <;> simp [Scheduler.send_emails_to_all, hemp, h0]
  · constructor
    · simp only [Scheduler.send_emails_to_all, hemp, Bool.false_eq_true, if_false,
        campaignLoop_succ, campaignLoop_fail]
      simpa using filter_split_length contacts Scheduler.pendingB (fun c => sendOk (env c.id))
    · simp [Scheduler.send_emails_to_all, hemp]

/-- C7: saving the contact collection to the contact store
(`save_json(CONTACTS_FILE, contacts)`) and loading it back
(`load_json(CONTACTS_FILE)`) yields a collection equal to the original,
element order preserved. -/
theorem contacts_roundtrip (cs : List Contact) :
    load_contacts (save_contacts cs) = some cs := by
  simp [load_contacts, save_contacts, decodeContactList_map]

/-- C8: `send_email` never raises to its caller — its whole body runs in
one `try`; every transport/auth/network (or template/persistence) failure
is caught and reported as the return value `False`, and it returns `True`
exactly when every fallible step, the SMTP submission included, succeeded
(so `True` only on successful submission). -/
theorem send_email_reports_failure_as_false (env : SendEnv) (now : Int) (c : Contact)
    (tracking : List TrackingEvent) :
    (Scheduler.send_email env now c tracking).2.2
      = (env.templateOk && env.smtpOk && env.trackingSaveOk) :=
  send_email_flag env now c tracking

/-- C4: `GET /interested/{id}` for a pending contact with that id sets that
contact's status to `"interested"` (stamping `updated_at`), appends exactly
one tracking event with action `"interested"` carrying the contact's id,
name and email, and responds with a redirect to the configured external
scheduling link (`CALENDLY_LINK`). -/
theorem interested_pending_click (calendly : String) (cid now : Int)
    (contacts : List Contact) (tracking : List TrackingEvent) (c : Contact)
    (hfind : contacts.find? (fun x => x.id == cid) = some c)
    (hpending : c.status = some "pending") :
    (App.interested calendly cid now contacts tracking).response
        = App.HttpResponse.redirect calendly ∧
    (App.interested calendly cid now contacts tracking).tracking
        = tracking ++ [{ contact_id := cid, contact_name := c.name,
                         contact_email := c.email, action := "interested",
                         timestamp := now }] ∧
    (App.interested calendly cid now contacts tracking).contacts.find?
        (fun x => x.id == cid)
        = some { c with status := some "interested", updated_at := some now } := by
  have h2 := setStatusFirst_find? cid "interested" now contacts c hfind
  refine ⟨rfl, ?_, ?_⟩
  · simp [App.interested, App.update_contact_status, App.track_response, h2]
  · simpa [App.interested, App.update_contact_status] using h2

theorem interested_pending_click_witness :
    [pending42].find? (fun x => x.id == 42) = some pending42 ∧
    pending42.status = some "pending" ∧
    (App.interested "https://calendly.example/demo" 42 5 [pending42] []).response
        = App.HttpResponse.redirect "https://calendly.example/demo" ∧
    (App.interested "https://calendly.example/demo" 42 5 [pending42] []).contacts.find?
        (fun x => x.id == 42)
        = some { pending42 with status := some "interested", updated_at := some 5 } :=
  ⟨by decide, by decide,
   (interested_pending_click "https://calendly.example/demo" 42 5 [pending42] []
      pending42 (by decide) (by decide)).1,
   (interested_pending_click "https://calendly.example/demo" 42 5 [pending42] []
      pending42 (by decide) (by decide)).2.2⟩

/-- C5: firing the reminder callback for a contact whose status is already
`interested` or `not_interested`, or for an id with no contact, is a no-op:
the guard `if not contact or contact.get('status') != 'pending'` returns
before anything is mutated, persisted or scheduled. -/
theorem reminder_noop_when_resolved (env : SendEnv) (sched : Bool)
    (contact_id interval now : Int) (s : Scheduler.SchedState)
    (h : s.contacts.find? (fun c => c.id == contact_id) = none ∨
         ∃ c, s.contacts.find? (fun c => c.id == contact_id) = some c ∧
           (c.status = some "interested" ∨ c.status = some "not_interested")) :
    Scheduler.send_reminder_email env sched contact_id interval now s = (s, []) := by
  rcases h with h | ⟨c, hc, hst⟩
  · simp [Scheduler.send_reminder_email, h]
  · have hne : (c.status == some "pending") = false := by
      rcases hst with h1 | h1 <;> rw [h1] <;> decide
    simp [Scheduler.send_reminder_email, hc, hne]

theorem reminder_noop_when_resolved_witness :
    (sampleState.contacts.find? (fun c => c.id == 9) = some sampleResolved ∧
      sampleResolved.status = some "interested") ∧
    Scheduler.send_reminder_email envAllOk true 9 1 5 sampleState = (sampleState, []) :=
  ⟨⟨by decide, by decide⟩,
   reminder_noop_when_resolved envAllOk true 9 1 5 sampleState
     (Or.inr ⟨sampleResolved, by decide, Or.inl (by decide)⟩)⟩

/-- C6 counterexample: a campaign run over a collection with no pending
contact takes the early `return` and performs no persistence at all, so the
contact collection is not "persisted exactly once" in that run. -/
theorem campaign_no_persist_when_no_pending :
    (Scheduler.send_emails_to_all (fun _ => envAllOk) true 1 0
        [sampleResolved] [] []).writes = [] ∧
    (Scheduler.send_emails_to_all (fun _ => envAllOk) true 1 0
        [sampleResolved] [] []).writes.countP isContactsWriteB ≠ 1 := by
  constructor
  · decide
  · decide

/-- C6 amended: during a campaign run with at least one pending contact,
every contact whose initial send fails is left unmodified (the final
collection is the pointwise map leaving non-pending and failed contacts
unchanged) and counted as failed, each pending contact is attempted exactly
once (no retry), the contact collection is persisted exactly once as the
final write after all contacts are processed, and the preceding writes are
exactly one tracking-log persist per successful send; with no pending
contact the run exits early and persists nothing. -/
theorem campaign_frame_effects (env : Int → SendEnv) (sched : Bool) (interval now : Int)
    (contacts : List Contact) (tracking : List TrackingEvent) (jobs : List Job)
    (h : (contacts.filter Scheduler.pendingB).isEmpty = false) :
    (Scheduler.send_emails_to_all env sched interval now contacts tracking jobs).contacts
        = contacts.map (Scheduler.stepContact env now) ∧
    (Scheduler.send_emails_to_all env sched interval now contacts tracking jobs).failed_count
        = (contacts.filter fun c => Scheduler.pendingB c && !(sendOk (env c.id))).length ∧
    (Scheduler.send_emails_to_all env sched interval now contacts tracking jobs).sends
        = (contacts.filter Scheduler.pendingB).map (fun c => c.id) ∧
    (Scheduler.send_emails_to_all env sched interval now contacts tracking jobs).writes
        = (Scheduler.send_emails_to_all env sched interval now contacts tracking jobs).writes.dropLast
          ++ [WriteOp.contactsWrite
                ((Scheduler.send_emails_to_all env sched interval now contacts tracking jobs).contacts)] ∧
    (Scheduler.send_emails_to_all env sched interval now contacts tracking jobs).writes.dropLast.all
        isTrackingWriteB = true ∧
    (Scheduler.send_emails_to_all env sched interval now contacts tracking jobs).writes.dropLast.length
        = (Scheduler.send_emails_to_all env sched interval now contacts tracking jobs).success_count := by
  obtain ⟨ws, hw, hall, hlen⟩ := campaignLoop_writes env sched interval now contacts
    { done := [], pendingDone := [], tracking := tracking, writes := [], jobs := jobs,
      sends := [], succ := 0, fail := 0 }
  simp only [Scheduler.send_emails_to_all, h, Bool.false_eq_true, if_false]
  refine ⟨?_, ?_, ?_, ?_, ?_, ?_⟩
  · simp [campaignLoop_done]
  · simp [campaignLoop_fail]
  · simp [campaignLoop_sends]
  · simp [hw, List.dropLast_concat]
  · simp only [hw]
    simpa [List.dropLast_concat] using hall
  · simp [hw, List.dropLast_concat, hlen, campaignLoop_succ]

def pending13 : Contact :=
  { id := 13, name := "Lee", email := "lee@example.com", status := some "pending" }

/-- Oracle where only contact 7's send succeeds (13's SMTP session fails). -/
def envMixed : Int → SendEnv :=
  fun i => if i == 7 then envAllOk
           else { templateOk := true, smtpOk := false, trackingSaveOk := true }

theorem campaign_frame_effects_witness :
    ([samplePending, pending13, sampleResolved].filter Scheduler.pendingB).isEmpty = false ∧
    ((Scheduler.send_emails_to_all envMixed true 1 0
        [samplePending, pending13, sampleResolved] [] []).contacts
          = [samplePending, pending13, sampleResolved].map (Scheduler.stepContact envMixed 0) ∧
      (Scheduler.send_emails_to_all envMixed true 1 0
        [samplePending, pending13, sampleResolved] [] []).failed_count
          = ([samplePending, pending13, sampleResolved].filter
              fun c => Scheduler.pendingB c && !(sendOk (envMixed c.id))).length ∧
      (Scheduler.send_emails_to_all envMixed true 1 0
        [samplePending, pending13, sampleResolved] [] []).sends
          = ([samplePending, pending13, sampleResolved].filter Scheduler.pendingB).map
              (fun c => c.id) ∧
      (Scheduler.send_emails_to_all envMixed true 1 0
        [samplePending, pending13, sampleResolved] [] []).writes
          = (Scheduler.send_emails_to_all envMixed true 1 0
              [samplePending, pending13, sampleResolved] [] []).writes.dropLast
            ++ [WriteOp.contactsWrite
                  ((Scheduler.send_emails_to_all envMixed true 1 0
                    [samplePending, pending13, sampleResolved] [] []).contacts)] ∧
      (Scheduler.send_emails_to_all envMixed true 1 0
        [samplePending, pending13, sampleResolved] [] []).writes.dropLast.all
          isTrackingWriteB = true ∧
      (Scheduler.send_emails_to_all envMixed true 1 0
        [samplePending, pending13, sampleResolved] [] []).writes.dropLast.length
          = (Scheduler.send_emails_to_all envMixed true 1 0
              [samplePending, pending13, sampleResolved] [] []).success_count) :=
  ⟨by decide,
   campaign_frame_effects envMixed true 1 0 [samplePending, pending13, sampleResolved]
     [] [] (by decide)⟩

/-- C9: `GET /stats` never divides by zero — the rate is guarded by
`if total_contacts > 0`.  Provided every contact has a status key (the data
model guarantees one; `c['status']` would raise `KeyError` otherwise), the
endpoint answers: the `response_rate` field is the literal `"0%"` (modelled
`none`) when the collection is empty, and otherwise the exact value
`(interested + not_interested) / total * 100` (rendered to one decimal
place); `recent_responses` is always the last at most 10 tracking events. -/
theorem stats_no_div_by_zero (contacts : List Contact) (tracking : List TrackingEvent)
    (h : contacts.all (fun c => c.status.isSome) = true) :
    ∃ r, App.get_stats contacts tracking = Except.ok r ∧
      (contacts.length = 0 → r.response_rate = none) ∧
      (0 < contacts.length →
        r.response_rate = some
          ((((contacts.filter (fun c => c.status == some "interested")).length
              + (contacts.filter (fun c => c.status == some "not_interested")).length : Nat) : Rat)
            / (contacts.length : Rat) * 100)) ∧
      r.recent_responses.length = min tracking.length 10 ∧
      r.recent_responses <:+ tracking := by
  unfold App.get_stats
  rw [if_pos h]
  refine ⟨_, rfl, ?_, ?_, ?_, ?_⟩
  · intro h0
    simp [h0]
  · intro h0
    simp [if_pos h0]
  · rcases Nat.eq_zero_or_pos tracking.length with h0 | h0
    · simp [h0]
    · simp [h0, List.length_drop]
      omega
  · rcases Nat.eq_zero_or_pos tracking.length with h0 | h0
    · simp [h0, List.nil_suffix]
    · simp only [if_pos h0]
      exact List.drop_suffix _ _

theorem stats_no_div_by_zero_witness :
    ([sampleResolved, pending42].all (fun c => c.status.isSome) = true) ∧
    (∃ r, App.get_stats [sampleResolved, pending42] [sampleEvent] = Except.ok r ∧
      (([sampleResolved, pending42] : List Contact).length = 0 → r.response_rate = none) ∧
      (0 < ([sampleResolved, pending42] : List Contact).length →
        r.response_rate = some
          (((([sampleResolved, pending42].filter
                (fun c => c.status == some "interested")).length
              + ([sampleResolved, pending42].filter
                  (fun c => c.status == some "not_interested")).length : Nat) : Rat)
            / (([sampleResolved, pending42] : List Contact).length : Rat) * 100)) ∧
      r.recent_responses.length = min ([sampleEvent] : List TrackingEvent).length 10 ∧
      r.recent_responses <:+ [sampleEvent]) :=
  ⟨by decide, stats_no_div_by_zero [sampleResolved, pending42] [sampleEvent] (by decide)⟩

/-- C10: `GET /interested/{id}` and `GET /not-interested/{id}` for an id
matching no contact still return their success response (the redirect,
resp. the 200 thank-you page): `update_contact_status`'s loop finds
nothing and rewrites the contact store with its contents unchanged, and
`track_response` appends no tracking event — the unknown id is never
reported as an error to the client. -/
theorem unknown_id_success_noop (calendly : String) (cid now : Int)
    (contacts : List Contact) (tracking : List TrackingEvent)
    (h : contacts.find? (fun x => x.id == cid) = none) :
    App.interested calendly cid now contacts tracking
        = { contacts := contacts, tracking := tracking,
            writes := [WriteOp.contactsWrite contacts],
            response := App.HttpResponse.redirect calendly } ∧
    App.not_interested cid now contacts tracking
        = { contacts := contacts, tracking := tracking,
            writes := [WriteOp.contactsWrite contacts],
            response := App.HttpResponse.htmlPage } := by
  have h1 := setStatusFirst_of_none cid "interested" now contacts h
  have h2 := setStatusFirst_of_none cid "not_interested" now contacts h
  constructor
  · simp [App.interested, App.update_contact_status, App.track_response, h1, h]
  · simp [App.not_interested, App.update_contact_status, App.track_response, h2, h]

theorem unknown_id_success_noop_witness :
    ([pending42].find? (fun x => x.id == 5) = none) ∧
    App.interested "https://calendly.example/demo" 5 7 [pending42] [sampleEvent]
        = { contacts := [pending42], tracking := [sampleEvent],
            writes := [WriteOp.contactsWrite [pending42]],
            response := App.HttpResponse.redirect "https://calendly.example/demo" } ∧
    App.not_interested 5 7 [pending42] [sampleEvent]
        = { contacts := [pending42], tracking := [sampleEvent],
            writes := [WriteOp.contactsWrite [pending42]],
            response := App.HttpResponse.htmlPage } :=
  ⟨by decide,
   (unknown_id_success_noop "https://calendly.example/demo" 5 7 [pending42]
      [sampleEvent] (by decide)).1,
   (unknown_id_success_noop "https://calendly.example/demo" 5 7 [pending42]
      [sampleEvent] (by decide)).2⟩
